import Mathlib

/-!
# react-router: `Route` and `withRouter`

A shallow embedding of `src/react-router/Route.js` and `src/withRouter.js`.

* JavaScript objects whose keys are not fixed (a props bag, the further fields
  of a router context, the static properties of a component type) are
  association lists with the semantics of property read, property write,
  `Object.assign` / spread and rest-destructuring.
* Values with a fixed shape (a location, a match, the router context, the props
  of `<Route>`) are structures; an optional prop is an `Option`, `none`
  standing for `undefined` / `null`.
* A method that can throw returns an `Except Error _`; every call a method makes
  to a collaborator (the path matcher, `React.createElement`, the `render` and
  `children` functions, `React.Children.only`, `warning`) is recorded, in
  order, in the `calls` of its `Run`.
* `matchPath` (imported from `./matchPath`, not part of the sources at hand)
  and the two `React.Children` helpers are parameters.
* `React.createElement` follows the library: reserved names are kept out of
  the props, `ref` is taken from the config, and `defaultProps` of the
  component type fill in every prop that reads `undefined`.
-/

namespace ReactRouter

/-! ## JavaScript objects as association lists -/

/-- An object with string keys: its own properties in insertion order. -/
abbrev Obj (β : Type) := List (String × β)

namespace Obj

variable {β : Type}

/-- Own property names, `Object.keys(o)`. -/
def keys (o : Obj β) : List String := o.map (·.1)

/-- Own property read: `none` when `o` has no own property `k`. -/
def get : Obj β → String → Option β
  | [], _ => none
  | (k', v) :: rest, k => if k' = k then some v else get rest k

/-- Property write `o[k] = v`: an existing property keeps its place. -/
def set : Obj β → String → β → Obj β
  | [], k, v => [(k, v)]
  | (k', v') :: rest, k, v => if k' = k then (k, v) :: rest else (k', v') :: set rest k v

/-- The spread `{...target, ...source}`, that is `Object.assign`: for every own
key of `source`, in order, `target[key] = source[key]`. -/
def assign (target source : Obj β) : Obj β :=
  (keys source).foldl
    (fun acc k => match get source k with
      | some v => set acc k v
      | none => acc)
    target

/-- Rest destructuring `const { k, ...rest } = o`: every own property but `k`. -/
def without : Obj β → String → Obj β
  | [], _ => []
  | (k', v) :: rest, k => if k' = k then without rest k else (k', v) :: without rest k

end Obj

/-! ## Data model -/

/-- A location snapshot supplied by the history service. -/
structure Location where
  pathname : String
  search : String
  hash : String
  state : Option String
  deriving DecidableEq

/-- A successful match produced by the path matcher. -/
structure Match where
  path : String
  url : String
  isExact : Bool
  params : List (String × String)
  deriving DecidableEq

/-- The handle to the navigation service. -/
structure History where
  handle : Nat
  deriving DecidableEq

/-- The server-rendering bag. -/
structure StaticContext where
  bag : List (String × String)
  deriving DecidableEq

/-- A JavaScript value as it occurs as a property of a props bag or as a
further field of the router context. -/
inductive Val where
  | undefined
  | null
  | bool (b : Bool)
  | num (n : Int)
  | str (s : String)
  | ref (id : Nat)
  | matchObj (m : Match)
  | location (l : Location)
  | history (h : History)
  | staticContext (s : StaticContext)
  deriving DecidableEq

/-- The options object `{ path, strict, exact, sensitive }` handed to the path
matcher: the props' own values, `none` when the prop is not given. -/
structure RouteOptions where
  path : Option String
  strict : Option Bool
  exact : Option Bool
  sensitive : Option Bool
  deriving DecidableEq

/-- The `route` field of the router context. -/
structure RouteInfo where
  location : Location
  «match» : Option Match
  deriving DecidableEq

/-- The router context `context.router`: the fields `Route` reads, and `rest`
for any further own field. -/
structure RouterContext where
  history : History
  route : RouteInfo
  staticContext : Option StaticContext
  rest : Obj Val
  deriving DecidableEq

/-- The legacy context object of a component: `router` is `none` when no
ancestor provides it. -/
structure Context where
  router : Option RouterContext
  deriving DecidableEq

/-! ## Component types, elements and nodes -/

mutual
/-- The value of a static property of a component type. -/
inductive StaticValue where
  | data (id : Nat)
  | component (c : ComponentType)
/-- A component type (a function or class). `name` is the function's own
name; `displayName`, `propTypes` and `defaultProps` are its framework-reserved
statics; `statics` holds every other own static property. -/
inductive ComponentType where
  | mk (name : String) (displayName : Option String)
      (propTypes : Option (List (String × String)))
      (defaultProps : Option (List (String × Val)))
      (statics : List (String × StaticValue))
end

namespace ComponentType

/-- The function name, `Component.name`. -/
def name : ComponentType → String
  | mk n _ _ _ _ => n

/-- The static `Component.displayName`. -/
def displayName : ComponentType → Option String
  | mk _ d _ _ _ => d

/-- The static `Component.propTypes`. -/
def propTypes : ComponentType → Option (List (String × String))
  | mk _ _ p _ _ => p

/-- The static `Component.defaultProps`. -/
def defaultProps : ComponentType → Option (Obj Val)
  | mk _ _ _ d _ => d

/-- The default `Component.defaultProps[propName]` a component type declares,
if any. -/
def defaultProp (c : ComponentType) (propName : String) : Option Val :=
  match c.defaultProps with
  | some defaultProps => Obj.get defaultProps propName
  | none => none

/-- The own static properties that are not framework-reserved. -/
def statics : ComponentType → Obj StaticValue
  | mk _ _ _ _ s => s

end ComponentType

/-- A React element: the component type, the props it is rendered with and its
`ref` (`null` when the element is created without one). The element's `key` is
left out. -/
structure Element where
  type : ComponentType
  props : Obj Val
  ref : Val

/-- What a render function can return, and what `PropTypes.node` admits. -/
inductive Node where
  | null
  | bool (b : Bool)
  | num (n : Int)
  | str (s : String)
  | element (e : Element)
  | array (items : List Element)

/-- The prop bag `{ match, location, history, staticContext }` that
`Route.render` builds for the rendering strategies. -/
structure RouteComponentProps where
  «match» : Option Match
  location : Location
  history : History
  staticContext : Option StaticContext
  deriving DecidableEq

namespace RouteComponentProps

/-- The prop bag as an object: four own properties, `match` being `null` and
`staticContext` being `undefined` when there is none. -/
def toObj (p : RouteComponentProps) : Obj Val :=
  [ ("match", match p.match with
      | some m => Val.matchObj m
      | none => Val.null),
    ("location", Val.location p.location),
    ("history", Val.history p.history),
    ("staticContext", match p.staticContext with
      | some s => Val.staticContext s
      | none => Val.undefined) ]

end RouteComponentProps

/-- The `children` prop of `<Route>`: absent, a function of the prop bag, or a
node. -/
inductive Children where
  | absent
  | func (f : RouteComponentProps → Node)
  | node (n : Node)

namespace Children

/-- JavaScript truthiness of the `children` value. -/
def truthy : Children → Bool
  | absent => false
  | func _ => true
  | node Node.null => false
  | node (Node.bool b) => b
  | node (Node.num n) => n != 0
  | node (Node.str s) => s != ""
  | node (Node.element _) => true
  | node (Node.array _) => true

/-- The test `typeof children === "function"`. -/
def isFunction : Children → Bool
  | func _ => true
  | _ => false

end Children

/-- The props of `<Route>` (its `propTypes`). -/
structure RouteProps where
  computedMatch : Option Match := none
  path : Option String := none
  exact : Option Bool := none
  strict : Option Bool := none
  sensitive : Option Bool := none
  component : Option ComponentType := none
  render : Option (RouteComponentProps → Node) := none
  children : Children := Children.absent
  location : Option Location := none

/-! ## Errors, recorded calls, collaborators -/

/-- A thrown exception. -/
inductive Error where
  | invariantViolation (message : String)
  | typeError
  deriving DecidableEq

/-- A call made to a collaborator. -/
inductive Call where
  | matchPath (pathname : String) (options : RouteOptions) (parent : Option Match)
  | createElement (type : ComponentType) (props : RouteComponentProps)
  | render (props : RouteComponentProps)
  | children (props : RouteComponentProps)
  | childrenOnly
  | warning (message : String)

/-- The outcome of running a method: the calls it made, in order, and what it
returned or threw. -/
structure Run (α : Type) where
  calls : List Call
  result : Except Error α

/-- The collaborators that are not part of the sources at hand: the path
matcher `matchPath(pathname, options, parent)` of `./matchPath`, and
`React.Children.count` / `React.Children.only`. -/
structure Deps where
  matchPath : String → RouteOptions → Option Match → Option Match
  childrenCount : Children → Nat
  childrenOnly : Children → Except Error Node

/-- The prop names `React.createElement` keeps out of an element's props. -/
def reservedProps : List String := ["key", "ref", "__self", "__source"]

/-- The first loop of `React.createElement`: every own property of `config`
whose name is not reserved is copied into a fresh props object. -/
def React.copyConfig (config : Obj Val) : Obj Val :=
  (Obj.keys config).foldl
    (fun props propName =>
      if propName ∈ reservedProps then props
      else match Obj.get config propName with
        | some v => Obj.set props propName v
        | none => props)
    []

/-- The second loop of `React.createElement`: for every name in
`defaultProps`, a prop that reads `undefined` (absent, or present with the
value `undefined`) takes the default. -/
def React.resolveDefaultProps (props defaultProps : Obj Val) : Obj Val :=
  (Obj.keys defaultProps).foldl
    (fun props propName =>
      if (Obj.get props propName).getD Val.undefined = Val.undefined then
        match Obj.get defaultProps propName with
        | some v => Obj.set props propName v
        | none => props
      else props)
    props

/-- The library function `React.createElement(type, config)` without child
arguments: `ref` is `config.ref` unless that is `undefined`, the props are the
non-reserved own properties of `config`, and the component type's
`defaultProps` fill in every prop that reads `undefined`. -/
def React.createElement (type : ComponentType) (config : Obj Val) : Element :=
  let ref :=
    match Obj.get config "ref" with
    | some v => if v = Val.undefined then Val.null else v
    | none => Val.null
  let props := React.copyConfig config
  let props :=
    match type.defaultProps with
    | some defaultProps => React.resolveDefaultProps props defaultProps
    | none => props
  { type := type, props := props, ref := ref }

/-- The call `React.createElement(component, props)` of `Route.render`, the
prop bag being the config object. -/
def createElement (type : ComponentType) (props : RouteComponentProps) : Node :=
  Node.element (React.createElement type props.toObj)

/-- The check `invariant(condition, message)`: throws when `condition` is falsy. -/
def invariant {α : Type} (condition : Option α) (message : String) : Except Error α :=
  match condition with
  | some a => Except.ok a
  | none => Except.error (Error.invariantViolation message)

/-- The check `warning(condition, message)`: logs `message` when `condition` is
false, and never throws. -/
def warning (condition : Bool) (message : String) : List Call :=
  if condition then [] else [Call.warning message]

/-! ## `Route` (src/react-router/Route.js) -/

/-- The component state `{ match }`. -/
structure State where
  «match» : Option Match
  deriving DecidableEq

/-- A `Route` instance: `this.props`, `this.context`, `this.state`. -/
structure Instance where
  props : RouteProps
  context : Context
  state : State

/-- The object `{ ...this.context.router, route }` that `getChildContext`
builds: `history` is there only when the ambient router context had it to
spread. -/
structure PublishedRouter where
  history : Option History
  route : RouteInfo
  staticContext : Option StaticContext
  rest : Obj Val
  deriving DecidableEq

/-- The context object returned by `getChildContext`: `{ router }`. -/
structure ChildContext where
  router : PublishedRouter
  deriving DecidableEq

/-- The message of the invariant in `computeMatch`. -/
def outsideRouterMessage : String :=
  "You should not use <Route> or withRouter() outside a <Router>"

/-- The helper `isEmptyChildren`: `React.Children.count(children) === 0`. -/
def isEmptyChildren (D : Deps) (children : Children) : Bool :=
  D.childrenCount children == 0

/-- The method `computeMatch({ computedMatch, location, path, strict, exact,
sensitive }, router)`. -/
def computeMatch (D : Deps) (props : RouteProps) (router : Option RouterContext) :
    Run (Option Match) :=
  match props.computedMatch with
  | some computedMatch => { calls := [], result := Except.ok (some computedMatch) }
  | none =>
    match invariant router outsideRouterMessage with
    | Except.error e => { calls := [], result := Except.error e }
    | Except.ok router =>
      let route := router.route
      let pathname := (props.location.getD route.location).pathname
      let options : RouteOptions :=
        { path := props.path, strict := props.strict, exact := props.exact,
          sensitive := props.sensitive }
      { calls := [Call.matchPath pathname options route.match],
        result := Except.ok (D.matchPath pathname options route.match) }

/-- The class-field initialiser `state = { match: this.computeMatch(this.props,
this.context.router) }`, run when the instance is constructed with `props` and
`context`. -/
def construct (D : Deps) (props : RouteProps) (context : Context) : Run Instance :=
  let m := computeMatch D props context.router
  { calls := m.calls,
    result := match m.result with
      | Except.ok «match» =>
        Except.ok { props := props, context := context, state := { «match» := «match» } }
      | Except.error e => Except.error e }

/-- The method `getChildContext()`. It assigns nothing; the instance is
returned beside the result to make that explicit. Spreading an absent router
adds no field; `this.context.router.route.location` is read only when there is
no `location` prop, and that read throws when the router is absent. -/
def getChildContext (self : Instance) : Instance × Except Error ChildContext :=
  (self,
    match self.context.router with
    | some router =>
      Except.ok
        { router :=
            { history := some router.history,
              route :=
                { location := self.props.location.getD router.route.location,
                  «match» := self.state.match },
              staticContext := router.staticContext,
              rest := router.rest } }
    | none =>
      match self.props.location with
      | some location =>
        Except.ok
          { router :=
              { history := none,
                route := { location := location, «match» := self.state.match },
                staticContext := none,
                rest := [] } }
      | none => Except.error Error.typeError)

/-- The method `componentWillMount()`: three advisory warnings. -/
def componentWillMount (D : Deps) (self : Instance) : List Call :=
  warning
      (!(self.props.component.isSome && self.props.render.isSome))
      "You should not use <Route component> and <Route render> in the same route; <Route render> will be ignored"
    ++
  warning
      (!(self.props.component.isSome && self.props.children.truthy
          && !isEmptyChildren D self.props.children))
      "You should not use <Route component> and <Route children> in the same route; <Route children> will be ignored"
    ++
  warning
      (!(self.props.render.isSome && self.props.children.truthy
          && !isEmptyChildren D self.props.children))
      "You should not use <Route render> and <Route children> in the same route; <Route children> will be ignored"

/-- The method `componentWillReceiveProps(nextProps, nextContext)`: two advisory
warnings, then `this.setState({ match: this.computeMatch(nextProps,
nextContext.router) })`. The result is the state after the `setState`. -/
def componentWillReceiveProps (D : Deps) (self : Instance) (nextProps : RouteProps)
    (nextContext : Context) : Run State :=
  let warnings :=
    warning
        (!(nextProps.location.isSome && !self.props.location.isSome))
        "<Route> elements should not change from uncontrolled to controlled (or vice versa). You initially used no \"location\" prop and then provided one on a subsequent render."
      ++
    warning
        (!(!nextProps.location.isSome && self.props.location.isSome))
        "<Route> elements should not change from controlled to uncontrolled (or vice versa). You provided a \"location\" prop initially but omitted it on a subsequent render."
  let m := computeMatch D nextProps nextContext.router
  { calls := warnings ++ m.calls,
    result := match m.result with
      | Except.ok «match» => Except.ok { self.state with «match» := «match» }
      | Except.error e => Except.error e }

/-- The method `render()`. -/
def render (D : Deps) (self : Instance) : Run Node :=
  let «match» := self.state.match
  let children := self.props.children
  let component := self.props.component
  let render := self.props.render
  match self.context.router with
  | none => { calls := [], result := Except.error Error.typeError }
  | some router =>
    let history := router.history
    let route := router.route
    let staticContext := router.staticContext
    let location := self.props.location.getD route.location
    let props : RouteComponentProps :=
      { «match» := «match», location := location, history := history,
        staticContext := staticContext }
    match component with
    | some component =>
      if «match».isSome then
        { calls := [Call.createElement component props],
          result := Except.ok (createElement component props) }
      else { calls := [], result := Except.ok Node.null }
    | none =>
      match render with
      | some render =>
        if «match».isSome then
          { calls := [Call.render props], result := Except.ok (render props) }
        else { calls := [], result := Except.ok Node.null }
      | none =>
        match children with
        | Children.func children =>
          { calls := [Call.children props], result := Except.ok (children props) }
        | children =>
          if children.truthy && !isEmptyChildren D children then
            { calls := [Call.childrenOnly], result := D.childrenOnly children }
          else { calls := [], result := Except.ok Node.null }

/-! ## The lifecycle React drives -/

/-- Mounting a `<Route>` with `props` under `context`: React constructs the
instance, calls `componentWillMount`, then `render`. A throw ends the mount. -/
def mount (D : Deps) (props : RouteProps) (context : Context) : Run (Instance × Node) :=
  let c := construct D props context
  match c.result with
  | Except.error e => { calls := c.calls, result := Except.error e }
  | Except.ok self =>
    let w := componentWillMount D self
    let r := render D self
    { calls := c.calls ++ w ++ r.calls,
      result := match r.result with
        | Except.ok node => Except.ok (self, node)
        | Except.error e => Except.error e }

/-- An update of a mounted `<Route>`: React calls
`componentWillReceiveProps(nextProps, nextContext)`, then installs `nextProps`,
`nextContext` and the pending state on the instance; the next `render` reads
that instance. -/
def update (D : Deps) (self : Instance) (nextProps : RouteProps) (nextContext : Context) :
    Run Instance :=
  let r := componentWillReceiveProps D self nextProps nextContext
  { calls := r.calls,
    result := match r.result with
      | Except.ok state =>
        Except.ok { props := nextProps, context := nextContext, state := state }
      | Except.error e => Except.error e }

/-- The instances a mounted `<Route>` goes through: the one its construction
yields, and the one every successful update yields. -/
inductive Reachable (D : Deps) : Instance → Prop where
  | constructed (props : RouteProps) (context : Context) {self : Instance}
      (h : (construct D props context).result = Except.ok self) : Reachable D self
  | updated (previous : Instance) (nextProps : RouteProps) (nextContext : Context)
      {self : Instance} (hprevious : Reachable D previous)
      (h : (update D previous nextProps nextContext).result = Except.ok self) :
      Reachable D self

/-! ## `withRouter` (src/withRouter.js) -/

/-- Modelled from the spec: `hoistStatics(target, source)` of the package
hoist-non-react-statics is not part of the sources at hand. It "copies
non-framework-reserved static properties/metadata from the wrapped component
onto the adapter's output component": every own static of `source` that is
not framework-reserved is defined on `target`, and `target` is returned. -/
def hoistStatics (target source : ComponentType) : ComponentType :=
  ComponentType.mk target.name target.displayName target.propTypes target.defaultProps
    (Obj.assign target.statics source.statics)

/-- The function component `C` inside `withRouter(Component)`, applied to
`props`: the element `<Route children={...} />`, given by its props. The
children function returns
`<Component {...remainingProps} {...routeComponentProps} ref={wrappedComponentRef} />`,
that is `React.createElement(Component, config)` with the config object the
attributes make up in order. -/
def withRouter.C (Component : ComponentType) (props : Obj Val) : RouteProps :=
  let wrappedComponentRef := (Obj.get props "wrappedComponentRef").getD Val.undefined
  let remainingProps := Obj.without props "wrappedComponentRef"
  { children := Children.func fun routeComponentProps =>
      Node.element
        (React.createElement Component
          (Obj.assign
            (Obj.assign (Obj.assign [] remainingProps) routeComponentProps.toObj)
            [("ref", wrappedComponentRef)])) }

/-- The expression `Component.displayName || Component.name`. -/
def displayNameOrName (Component : ComponentType) : String :=
  match Component.displayName with
  | some d => if d = "" then Component.name else d
  | none => Component.name

/-- The higher-order component `withRouter(Component)`, as the component type
it returns: the statics of `C` are assigned in source order, then
`hoistStatics(C, Component)` is returned. -/
def withRouter (Component : ComponentType) : ComponentType :=
  let C := ComponentType.mk "C" none none none []
  let C := ComponentType.mk C.name
    (some ("withRouter(" ++ displayNameOrName Component ++ ")")) C.propTypes
    C.defaultProps C.statics
  let C := ComponentType.mk C.name C.displayName C.propTypes C.defaultProps
    (Obj.set C.statics "WrappedComponent" (StaticValue.component Component))
  let C := ComponentType.mk C.name C.displayName
    (some [("wrappedComponentRef", "func")]) C.defaultProps C.statics
  hoistStatics C Component

/-- The static `WrappedComponent` of a component type. -/
def WrappedComponent (c : ComponentType) : Option StaticValue :=
  Obj.get c.statics "WrappedComponent"

/-! ## Sample data -/

/-- A path matcher for the examples: a route without `path` inherits the
parent match, a route with `path` matches when `path` is a prefix of the
pathname. -/
def sampleMatchPath (pathname : String) (options : RouteOptions) (parent : Option Match) :
    Option Match :=
  match options.path with
  | none => parent
  | some path =>
    if path.toList.isPrefixOf pathname.toList then
      some { path := path, url := path, isExact := decide (path = pathname), params := [] }
    else none

/-- The collaborators for the examples; `React.Children.only` accepts a single
element. -/
def sampleDeps : Deps where
  matchPath := sampleMatchPath
  childrenCount := fun children =>
    match children with
    | Children.absent => 0
    | Children.func _ => 0
    | Children.node Node.null => 0
    | Children.node (Node.array items) => items.length
    | Children.node _ => 1
  childrenOnly := fun children =>
    match children with
    | Children.node (Node.element e) => Except.ok (Node.element e)
    | _ => Except.error
        (Error.invariantViolation "React.Children.only expected to receive a single React element child.")

/-- A location `/users/42`. -/
def sampleLocation : Location :=
  { pathname := "/users/42", search := "", hash := "", state := none }

/-- A root match. -/
def sampleMatch : Match :=
  { path := "/", url := "/", isExact := false, params := [] }

/-- A router context as an ancestor `<Router>` provides it. -/
def sampleRouter : RouterContext :=
  { history := { handle := 1 },
    route := { location := sampleLocation, «match» := some sampleMatch },
    staticContext := none,
    rest := [("extra", Val.num 7)] }

/-- A plain component type without statics. -/
def sampleComponent : ComponentType := ComponentType.mk "Page" none none none []

/-- A component type that declares default props, one of them under the name
of a routing prop. -/
def defaultedComponent : ComponentType :=
  ComponentType.mk "Panel" none none
    (some [("staticContext", Val.str "fallback"), ("title", Val.str "Untitled")]) []

/-- Props as `<Switch>` passes them: the match is already computed. -/
def switchedProps : RouteProps := { computedMatch := some sampleMatch }

/-- Props of `<Route path="/users" />`. -/
def usersProps : RouteProps := { path := some "/users" }

/-- An element of the sample component. -/
def sampleElement : Element :=
  { type := sampleComponent, props := [("title", Val.str "Users")], ref := Val.null }

/-- Props passed to a wrapped component: two of them collide with injected
routing props. -/
def samplePassedProps : Obj Val :=
  [ ("title", Val.str "Users"), ("match", Val.str "mine"),
    ("staticContext", Val.num 5), ("wrappedComponentRef", Val.ref 9) ]

/-- Props passed to a wrapped component under a name React reserves, and with
an `undefined` value. -/
def reservedPassedProps : Obj Val :=
  [ ("key", Val.str "k1"), ("title", Val.undefined) ]

/-- A render function that shows the pathname it is given. -/
def showPathname (props : RouteComponentProps) : Node := Node.str props.location.pathname

/-- Props of `<Route path="/about" />`. -/
def aboutProps : RouteProps := { path := some "/about" }

/-- The match of `/users` against the location `/users/42`. -/
def usersMatch : Match :=
  { path := "/users", url := "/users", isExact := false, params := [] }

/-! ## Lemmas on objects -/

namespace Obj

variable {β : Type}

theorem get_set (o : Obj β) (k : String) (v : β) (k' : String) :
    get (set o k v) k' = if k = k' then some v else get o k' := by
  induction o with
  | nil => simp [set, get]
  | cons kv rest ih =>
    obtain ⟨a, b⟩ := kv
    simp only [set]
    split_ifs with h1 h2 h2
    · subst h1; subst h2; simp [get]
    · subst h1; simp [get, h2]
    · subst h2; simp [get, h1, ih]
    · simp only [get, ih, if_neg h2]

theorem get_eq_none_of_not_mem_keys (o : Obj β) (k : String) (h : k ∉ keys o) :
    get o k = none := by
  induction o with
  | nil => rfl
  | cons kv rest ih =>
    obtain ⟨a, b⟩ := kv
    simp only [keys, List.map_cons, List.mem_cons, not_or] at h
    have hne : ¬ a = k := fun e => h.1 e.symm
    simp only [get, hne, if_false]
    exact ih h.2

theorem get_foldl_assign (source : Obj β) (ks : List String) (target : Obj β) (k : String) :
    get (ks.foldl
        (fun acc k => match get source k with
          | some v => set acc k v
          | none => acc)
        target) k
      = if k ∈ ks then (get source k).orElse (fun _ => get target k) else get target k := by
  induction ks generalizing target with
  | nil => simp
  | cons a ks ih =>
    rw [List.foldl_cons, ih]
    by_cases hak : a = k
    · subst hak
      cases hs : get source a with
      | none => simp [hs]
      | some v => simp [hs, get_set]
    · have hka : ¬ k = a := fun e => hak e.symm
      cases hs : get source a with
      | none => simp [hs, hka]
      | some v => simp [hs, hka, get_set, hak]

/-- Reading a property of the spread `{...target, ...source}`: the own
property of `source` when it has one, else that of `target`. -/
theorem get_assign (target source : Obj β) (k : String) :
    get (assign target source) k = (get source k).orElse (fun _ => get target k) := by
  unfold assign
  rw [get_foldl_assign]
  by_cases h : k ∈ keys source
  · simp [h]
  · simp [h, get_eq_none_of_not_mem_keys source k h]

/-- Reading a property after the rest destructuring that leaves `k` out. -/
theorem get_without (o : Obj β) (k k' : String) :
    get (without o k) k' = if k = k' then none else get o k' := by
  induction o with
  | nil => simp [without, get]
  | cons kv rest ih =>
    obtain ⟨a, b⟩ := kv
    simp only [without]
    split_ifs with h1 h2 h2
    · subst h1; subst h2; simp [ih]
    · subst h1; simp [get, h2, ih]
    · subst h2; simp [get, h1, ih]
    · simp only [get, ih, if_neg h2]

end Obj

/-! ## Lemmas on `React.createElement` -/

theorem get_foldl_copyConfig (config : Obj Val) (ks : List String) (acc : Obj Val)
    (k : String) :
    Obj.get
        (ks.foldl
          (fun props propName =>
            if propName ∈ reservedProps then props
            else match Obj.get config propName with
              | some v => Obj.set props propName v
              | none => props)
          acc) k
      = if k ∈ ks ∧ k ∉ reservedProps then
          (Obj.get config k).orElse (fun _ => Obj.get acc k)
        else Obj.get acc k := by
  induction ks generalizing acc with
  | nil => simp
  | cons a ks ih =>
    rw [List.foldl_cons, ih]
    by_cases hak : a = k
    · subst hak
      by_cases hr : a ∈ reservedProps
      · simp [hr]
      · cases hs : Obj.get config a with
        | none => simp [hr, hs]
        | some v => simp [hr, hs, Obj.get_set]
    · have hka : ¬ k = a := fun e => hak e.symm
      by_cases hr : a ∈ reservedProps
      · simp [hr, hka]
      · cases hs : Obj.get config a with
        | none => simp [hr, hs, hka]
        | some v => simp [hr, hs, hka, Obj.get_set, hak]

/-- Reading a prop after the copying loop of `React.createElement`. -/
theorem get_copyConfig (config : Obj Val) (k : String) :
    Obj.get (React.copyConfig config) k
      = if k ∈ reservedProps then none else Obj.get config k := by
  unfold React.copyConfig
  rw [get_foldl_copyConfig]
  by_cases hr : k ∈ reservedProps
  · simp [hr, Obj.get]
  · by_cases hk : k ∈ Obj.keys config
    · cases hs : Obj.get config k <;> simp [hr, hk, hs, Obj.get]
    · simp [hr, hk, Obj.get_eq_none_of_not_mem_keys config k hk, Obj.get]

theorem get_foldl_resolveDefaultProps (defaultProps : Obj Val) (ks : List String)
    (props : Obj Val) (k : String) :
    Obj.get
        (ks.foldl
          (fun props propName =>
            if (Obj.get props propName).getD Val.undefined = Val.undefined then
              match Obj.get defaultProps propName with
              | some v => Obj.set props propName v
              | none => props
            else props)
          props) k
      = if k ∈ ks ∧ (Obj.get props k).getD Val.undefined = Val.undefined then
          (Obj.get defaultProps k).orElse (fun _ => Obj.get props k)
        else Obj.get props k := by
  induction ks generalizing props with
  | nil => simp
  | cons a ks ih =>
    rw [List.foldl_cons, ih]
    by_cases hak : a = k
    · subst hak
      by_cases hu : (Obj.get props a).getD Val.undefined = Val.undefined
      · cases hs : Obj.get defaultProps a with
        | none => simp [hu, hs]
        | some v => simp [hu, hs, Obj.get_set]
      · simp [hu]
    · have hka : ¬ k = a := fun e => hak e.symm
      by_cases hu : (Obj.get props a).getD Val.undefined = Val.undefined
      · cases hs : Obj.get defaultProps a with
        | none => simp [hu, hs, hka]
        | some v => simp [hu, hs, hka, Obj.get_set, hak]
      · simp [hu, hka]

/-- Reading a prop after the default-props loop of `React.createElement`. -/
theorem get_resolveDefaultProps (props defaultProps : Obj Val) (k : String) :
    Obj.get (React.resolveDefaultProps props defaultProps) k
      = if (Obj.get props k).getD Val.undefined = Val.undefined then
          (Obj.get defaultProps k).orElse (fun _ => Obj.get props k)
        else Obj.get props k := by
  unfold React.resolveDefaultProps
  rw [get_foldl_resolveDefaultProps]
  by_cases hk : k ∈ Obj.keys defaultProps
  · simp [hk]
  · simp [hk, Obj.get_eq_none_of_not_mem_keys defaultProps k hk]

/-- Reading a prop of a created element: the own property of the config
unless the name is reserved, and the declared default when that reads
`undefined`. -/
theorem get_createElement_props (type : ComponentType) (config : Obj Val) (k : String) :
    Obj.get (React.createElement type config).props k
      = if ((if k ∈ reservedProps then none else Obj.get config k).getD Val.undefined)
            = Val.undefined then
          (type.defaultProp k).orElse
            (fun _ => if k ∈ reservedProps then none else Obj.get config k)
        else (if k ∈ reservedProps then none else Obj.get config k) := by
  unfold React.createElement ComponentType.defaultProp
  cases hd : type.defaultProps with
  | none => simp [get_copyConfig]
  | some defaultProps => simp [get_resolveDefaultProps, get_copyConfig]

/-! ## `computeMatch` -/

/-- C3: when the props carry a precomputed match `computedMatch`, `computeMatch`
returns exactly that match, for every router context including an absent one,
and makes no call at all, so the path matcher is never invoked. -/
theorem computeMatch_computedMatch (D : Deps) (props : RouteProps)
    (router : Option RouterContext) (computedMatch : Match)
    (h : props.computedMatch = some computedMatch) :
    computeMatch D props router = { calls := [], result := Except.ok (some computedMatch) }
      ∧ ∀ pathname options parent,
          Call.matchPath pathname options parent ∉ (computeMatch D props router).calls := by
  have e : computeMatch D props router
      = { calls := [], result := Except.ok (some computedMatch) } := by
    simp [computeMatch, h]
  refine ⟨e, ?_⟩
  intro pathname options parent
  rw [e]
  exact List.not_mem_nil _

/-- A precomputed match is returned although no router context is present. -/
theorem computeMatch_computedMatch_witness :
    switchedProps.computedMatch = some sampleMatch
      ∧ computeMatch sampleDeps switchedProps none
          = { calls := [], result := Except.ok (some sampleMatch) } :=
  ⟨rfl, (computeMatch_computedMatch sampleDeps switchedProps none sampleMatch rfl).1⟩

/-- C7: without a precomputed match and with a router context present,
`computeMatch` makes exactly one call, `matchPath(pathname, { path, strict,
exact, sensitive }, router.route.match)`, and returns its result; `pathname` is
that of the `location` prop when it is given and that of
`router.route.location` otherwise. -/
theorem computeMatch_matchPath (D : Deps) (props : RouteProps) (router : RouterContext)
    (h : props.computedMatch = none) :
    computeMatch D props (some router)
      = { calls :=
            [Call.matchPath
              (match props.location with
                | some location => location.pathname
                | none => router.route.location.pathname)
              { path := props.path, strict := props.strict, exact := props.exact,
                sensitive := props.sensitive }
              router.route.match],
          result :=
            Except.ok
              (D.matchPath
                (match props.location with
                  | some location => location.pathname
                  | none => router.route.location.pathname)
                { path := props.path, strict := props.strict, exact := props.exact,
                  sensitive := props.sensitive }
                router.route.match) } := by
  cases hl : props.location <;> simp [computeMatch, h, hl, invariant]

/-- The route `/users` under the location `/users/42`: the matcher is asked
about the ambient pathname with the route's own options. -/
theorem computeMatch_matchPath_witness :
    usersProps.computedMatch = none
      ∧ (computeMatch sampleDeps usersProps (some sampleRouter)).result
          = Except.ok
              (sampleMatchPath "/users/42"
                { path := some "/users", strict := none, exact := none, sensitive := none }
                (some sampleMatch)) :=
  ⟨rfl, congrArg Run.result (computeMatch_matchPath sampleDeps usersProps sampleRouter rfl)⟩

/-- C2 as stated fails: with a precomputed match in the props and no router
context, `computeMatch` returns the match instead of raising the configuration
error. -/
theorem computeMatch_absent_router_counterexample :
    (computeMatch sampleDeps switchedProps none).result = Except.ok (some sampleMatch)
      ∧ (computeMatch sampleDeps switchedProps none).result
          ≠ Except.error (Error.invariantViolation outsideRouterMessage) := by
  have e : (computeMatch sampleDeps switchedProps none).result
      = Except.ok (some sampleMatch) := rfl
  refine ⟨e, ?_⟩
  rw [e]
  intro h
  cases h

/-- C2, amended: for props without a precomputed match and an absent router
context, `computeMatch` raises the configuration error without calling the path
matcher; so does the construction of the instance, and mounting stops there:
no `componentWillMount`, no `render`, no call to any rendering strategy. -/
theorem computeMatch_outside_router (D : Deps) (props : RouteProps)
    (h : props.computedMatch = none) :
    computeMatch D props none
        = { calls := [],
            result := Except.error (Error.invariantViolation outsideRouterMessage) }
      ∧ construct D props { router := none }
          = { calls := [],
              result := Except.error (Error.invariantViolation outsideRouterMessage) }
      ∧ mount D props { router := none }
          = { calls := [],
              result := Except.error (Error.invariantViolation outsideRouterMessage) } := by
  have e : computeMatch D props none
      = { calls := [],
          result := Except.error (Error.invariantViolation outsideRouterMessage) } := by
    simp [computeMatch, h, invariant]
  refine ⟨e, ?_, ?_⟩ <;> simp [mount, construct, e]

/-- A `<Route path="/users">` outside any router fails with the configuration
error. -/
theorem computeMatch_outside_router_witness :
    usersProps.computedMatch = none
      ∧ computeMatch sampleDeps usersProps none
          = { calls := [],
              result := Except.error
                (Error.invariantViolation
                  "You should not use <Route> or withRouter() outside a <Router>") } :=
  ⟨rfl, (computeMatch_outside_router sampleDeps usersProps rfl).1⟩

/-! ## `render` -/

/-- C1: for a route with a `component`, or without `component` but with a
`render` function, under any router context: `render` returns `null` and calls
nothing when the match is `null`; when the match is not `null` it invokes the
strategy once with the prop bag `{ match, location, history, staticContext }`
and returns its result. -/
theorem render_component_or_render (D : Deps) (props : RouteProps) (state : State)
    (router : RouterContext) :
    let bag : RouteComponentProps :=
      { «match» := state.match,
        location := props.location.getD router.route.location,
        history := router.history,
        staticContext := router.staticContext }
    let self : Instance :=
      { props := props, context := { router := some router }, state := state }
    (∀ component, props.component = some component →
        (state.match = none →
          render D self = { calls := [], result := Except.ok Node.null })
        ∧ (state.match ≠ none →
          render D self
            = { calls := [Call.createElement component bag],
                result := Except.ok (createElement component bag) }))
      ∧ (∀ renderFn, props.component = none → props.render = some renderFn →
        (state.match = none →
          render D self = { calls := [], result := Except.ok Node.null })
        ∧ (state.match ≠ none →
          render D self
            = { calls := [Call.render bag], result := Except.ok (renderFn bag) })) := by
  intro bag self
  refine ⟨?_, ?_⟩
  · intro component hc
    refine ⟨?_, ?_⟩
    · intro hm
      simp [render, self, hc, hm]
    · intro hm
      obtain ⟨m, hm'⟩ := Option.ne_none_iff_exists'.mp hm
      simp [render, self, bag, hc, hm']
  · intro renderFn hc hr
    refine ⟨?_, ?_⟩
    · intro hm
      simp [render, self, hc, hr, hm]
    · intro hm
      obtain ⟨m, hm'⟩ := Option.ne_none_iff_exists'.mp hm
      simp [render, self, bag, hc, hr, hm']

/-- C4: for a route whose `children` is a function and that has neither
`component` nor `render`, `render` calls the children function exactly once
with the prop bag and returns its result, whatever the match, `null` included. -/
theorem render_children_function (D : Deps) (props : RouteProps) (state : State)
    (router : RouterContext) (children : RouteComponentProps → Node)
    (hcomponent : props.component = none) (hrender : props.render = none)
    (hchildren : props.children = Children.func children) :
    render D { props := props, context := { router := some router }, state := state }
      = { calls :=
            [Call.children
              { «match» := state.match,
                location := props.location.getD router.route.location,
                history := router.history,
                staticContext := router.staticContext }],
          result :=
            Except.ok
              (children
                { «match» := state.match,
                  location := props.location.getD router.route.location,
                  history := router.history,
                  staticContext := router.staticContext }) } := by
  simp [render, hcomponent, hrender, hchildren]

/-- With a component and a match the element is created; with a render
function and no match nothing is rendered. -/
theorem render_component_or_render_witness :
    render sampleDeps
        { props := { component := some sampleComponent },
          context := { router := some sampleRouter },
          state := { «match» := some sampleMatch } }
      = { calls :=
            [Call.createElement sampleComponent
              { «match» := some sampleMatch, location := sampleLocation,
                history := { handle := 1 }, staticContext := none }],
          result :=
            Except.ok
              (createElement sampleComponent
                { «match» := some sampleMatch, location := sampleLocation,
                  history := { handle := 1 }, staticContext := none }) }
      ∧ render sampleDeps
          { props := { render := some showPathname },
            context := { router := some sampleRouter },
            state := { «match» := none } }
        = { calls := [], result := Except.ok Node.null } :=
  ⟨((render_component_or_render sampleDeps { component := some sampleComponent }
        { «match» := some sampleMatch } sampleRouter).1 sampleComponent rfl).2
      (fun h => Option.noConfusion h),
    ((render_component_or_render sampleDeps { render := some showPathname }
        { «match» := none } sampleRouter).2 showPathname rfl rfl).1 rfl⟩

/-- A children function is called although the match is `null`. -/
theorem render_children_function_witness :
    render sampleDeps
        { props := { children := Children.func showPathname },
          context := { router := some sampleRouter },
          state := { «match» := none } }
      = { calls :=
            [Call.children
              { «match» := none, location := sampleLocation,
                history := { handle := 1 }, staticContext := none }],
          result := Except.ok (Node.str "/users/42") } :=
  render_children_function sampleDeps { children := Children.func showPathname }
    { «match» := none } sampleRouter showPathname rfl rfl rfl

/-- C5: `render` resolves the strategies in the order component, render,
function children, node children. With a `component` the outcome is fixed by
the component, the match and the prop bag, and neither `render`, nor a children
function, nor `React.Children.only` is called. Without `component` and with
`render`, neither a children function nor `React.Children.only` is called. Node
children are handed to `React.Children.only` only when `component` and `render`
are absent and `children` is not a function, and they are when they are
truthy and not empty. With no strategy at all the output is `null`. -/
theorem render_precedence (D : Deps) (props : RouteProps) (state : State)
    (router : RouterContext) :
    let bag : RouteComponentProps :=
      { «match» := state.match,
        location := props.location.getD router.route.location,
        history := router.history,
        staticContext := router.staticContext }
    let self : Instance :=
      { props := props, context := { router := some router }, state := state }
    (∀ component, props.component = some component →
        render D self
            = (if state.match.isSome then
                { calls := [Call.createElement component bag],
                  result := Except.ok (createElement component bag) }
              else { calls := [], result := Except.ok Node.null })
          ∧ (∀ p, Call.render p ∉ (render D self).calls)
          ∧ (∀ p, Call.children p ∉ (render D self).calls)
          ∧ Call.childrenOnly ∉ (render D self).calls)
      ∧ (∀ renderFn, props.component = none → props.render = some renderFn →
        render D self
            = (if state.match.isSome then
                { calls := [Call.render bag], result := Except.ok (renderFn bag) }
              else { calls := [], result := Except.ok Node.null })
          ∧ (∀ p, Call.children p ∉ (render D self).calls)
          ∧ Call.childrenOnly ∉ (render D self).calls)
      ∧ (Call.childrenOnly ∈ (render D self).calls →
          props.component = none ∧ props.render = none
            ∧ props.children.isFunction = false)
      ∧ (props.component = none → props.render = none →
          props.children.isFunction = false →
          (props.children.truthy && !isEmptyChildren D props.children) = true →
          render D self
            = { calls := [Call.childrenOnly], result := D.childrenOnly props.children })
      ∧ (props.component = none → props.render = none →
          props.children = Children.absent →
          render D self = { calls := [], result := Except.ok Node.null }) := by
  intro bag self
  refine ⟨?_, ?_, ?_, ?_, ?_⟩
  · intro component hc
    have e : render D self
        = (if state.match.isSome then
            { calls := [Call.createElement component bag],
              result := Except.ok (createElement component bag) }
          else { calls := [], result := Except.ok Node.null }) := by
      simp [render, self, bag, hc]
    refine ⟨e, ?_, ?_, ?_⟩ <;> rw [e] <;> split_ifs <;> simp
  · intro renderFn hc hr
    have e : render D self
        = (if state.match.isSome then
            { calls := [Call.render bag], result := Except.ok (renderFn bag) }
          else { calls := [], result := Except.ok Node.null }) := by
      simp [render, self, bag, hc, hr]
    refine ⟨e, ?_, ?_⟩ <;> rw [e] <;> split_ifs <;> simp
  · intro hmem
    cases hc : props.component with
    | some component =>
      exfalso
      revert hmem
      cases hm : state.match <;> simp [render, self, hc, hm]
    | none =>
      cases hr : props.render with
      | some renderFn =>
        exfalso
        revert hmem
        cases hm : state.match <;> simp [render, self, hc, hr, hm]
      | none =>
        refine ⟨rfl, rfl, ?_⟩
        cases hch : props.children with
        | func f =>
          exfalso
          revert hmem
          simp [render, self, hc, hr, hch]
        | absent => rfl
        | node n => rfl
  · intro hc hr hf ht
    cases hch : props.children with
    | func f => simp [hch, Children.isFunction] at hf
    | absent => simp [hch, Children.truthy] at ht
    | node n =>
      rw [hch] at ht
      simp [render, self, hc, hr, hch, ht]
  · intro hc hr hch
    simp [render, self, hc, hr, hch, Children.truthy]

/-- A route given `component`, `render` and a children function renders the
component only; a route given a single element as children renders it. -/
theorem render_precedence_witness :
    render sampleDeps
        { props :=
            { component := some sampleComponent, render := some showPathname,
              children := Children.func showPathname },
          context := { router := some sampleRouter },
          state := { «match» := some sampleMatch } }
      = { calls :=
            [Call.createElement sampleComponent
              { «match» := some sampleMatch, location := sampleLocation,
                history := { handle := 1 }, staticContext := none }],
          result :=
            Except.ok
              (createElement sampleComponent
                { «match» := some sampleMatch, location := sampleLocation,
                  history := { handle := 1 }, staticContext := none }) }
      ∧ render sampleDeps
          { props := { children := Children.node (Node.element sampleElement) },
            context := { router := some sampleRouter },
            state := { «match» := none } }
        = { calls := [Call.childrenOnly],
            result := Except.ok (Node.element sampleElement) } :=
  ⟨((render_precedence sampleDeps
        { component := some sampleComponent, render := some showPathname,
          children := Children.func showPathname }
        { «match» := some sampleMatch } sampleRouter).1 sampleComponent rfl).1,
    (render_precedence sampleDeps
        { children := Children.node (Node.element sampleElement) }
        { «match» := none } sampleRouter).2.2.2.1 rfl rfl rfl rfl⟩

/-! ## `getChildContext` -/

/-- C8: under a router context `router`, `getChildContext` publishes a router
context whose `route` is `{ location, match }` with the `location` prop when it
is given and the ambient route location otherwise, and the instance's current
`state.match`; `history`, `staticContext` and every further field are those of
`router`; the instance, its ambient context included, is left as it was. -/
theorem getChildContext_router (props : RouteProps) (state : State) (router : RouterContext) :
    (getChildContext
        { props := props, context := { router := some router }, state := state }).2
      = Except.ok
          { router :=
              { history := some router.history,
                route :=
                  { location :=
                      (match props.location with
                        | some location => location
                        | none => router.route.location),
                    «match» := state.match },
                staticContext := router.staticContext,
                rest := router.rest } }
      ∧ (getChildContext
          { props := props, context := { router := some router }, state := state }).1.context
        = { router := some router } := by
  refine ⟨?_, rfl⟩
  cases hl : props.location <;> simp [getChildContext, hl]

/-! ## `withRouter` -/

/-- C6 as stated fails on a component that declares default props.
`withRouter(Panel)` is rendered under a router context without static context
with the props `{ key: "k1", title: undefined }`: the inner route injects
`staticContext = undefined`, yet the element's `staticContext` is the default
`"fallback"` that `React.createElement` fills in; likewise the passed `title`,
`undefined`, becomes the default `"Untitled"`, and the reserved name `key` is
no prop of the element. -/
theorem withRouter_props_counterexample :
    ∃ e : Element,
      render sampleDeps
          { props := withRouter.C defaultedComponent reservedPassedProps,
            context := { router := some sampleRouter },
            state := { «match» := none } }
        = { calls :=
              [Call.children
                { «match» := none, location := sampleLocation,
                  history := { handle := 1 }, staticContext := none }],
            result := Except.ok (Node.element e) }
        ∧ Obj.get
            (RouteComponentProps.toObj
              { «match» := none, location := sampleLocation,
                history := { handle := 1 }, staticContext := none })
            "staticContext" = some Val.undefined
        ∧ Obj.get e.props "staticContext" = some (Val.str "fallback")
        ∧ Obj.get e.props "staticContext" ≠ some Val.undefined
        ∧ Obj.get reservedPassedProps "title" = some Val.undefined
        ∧ Obj.get e.props "title" = some (Val.str "Untitled")
        ∧ Obj.get reservedPassedProps "key" = some (Val.str "k1")
        ∧ Obj.get e.props "key" = none := by
  refine ⟨React.createElement defaultedComponent
            (Obj.assign
              (Obj.assign (Obj.assign [] (Obj.without reservedPassedProps "wrappedComponentRef"))
                (RouteComponentProps.toObj
                  { «match» := none, location := sampleLocation,
                    history := { handle := 1 }, staticContext := none }))
              [("ref", (Obj.get reservedPassedProps "wrappedComponentRef").getD Val.undefined)]),
          rfl, rfl, ?_, ?_, rfl, ?_, rfl, ?_⟩
  · decide
  · decide
  · decide
  · decide

/-- C6, amended: mounting `withRouter(Component)` with `props` under a router
context succeeds and installs the inner route, whose match is that of the path
matcher for a route without `path`. Every render of that inner route, whatever
match it holds, calls the children function once with the prop bag it injects
and returns one element of `Component` made by `React.createElement`. In the
element's props `match`, `location` and `history` are the injected values
(`match` is `null` when there is none), and `staticContext` is the injected
static context, or, when that is `undefined`, the default `Component` declares
for it, or `undefined` when it declares none; in no case does a same-named
property of `props` survive. `wrappedComponentRef` is not passed on as a prop;
it is the element's `ref`. Every other property of `props` whose name is not
reserved by React (`key`, `ref`, `__self`, `__source`) keeps its passed value,
unless that value is `undefined` and `Component` declares a default for the
name, which then replaces it. -/
theorem withRouter_props (D : Deps) (Component : ComponentType) (props : Obj Val)
    (router : RouterContext) :
    (∃ node,
        (mount D (withRouter.C Component props) { router := some router }).result
          = Except.ok
              ({ props := withRouter.C Component props,
                 context := { router := some router },
                 state :=
                  { «match» :=
                      D.matchPath router.route.location.pathname
                        { path := none, strict := none, exact := none, sensitive := none }
                        router.route.match } },
                node))
      ∧ ∀ state : State,
        ∃ e : Element,
          render D
              { props := withRouter.C Component props,
                context := { router := some router },
                state := state }
            = { calls :=
                  [Call.children
                    { «match» := state.match, location := router.route.location,
                      history := router.history, staticContext := router.staticContext }],
                result := Except.ok (Node.element e) }
          ∧ e.type = Component
          ∧ e.ref
              = (match Obj.get props "wrappedComponentRef" with
                  | some v => if v = Val.undefined then Val.null else v
                  | none => Val.null)
          ∧ Obj.get e.props "match"
              = some (match state.match with
                  | some m => Val.matchObj m
                  | none => Val.null)
          ∧ Obj.get e.props "location" = some (Val.location router.route.location)
          ∧ Obj.get e.props "history" = some (Val.history router.history)
          ∧ Obj.get e.props "staticContext"
              = some (match router.staticContext with
                  | some s => Val.staticContext s
                  | none =>
                    match Component.defaultProp "staticContext" with
                    | some d => d
                    | none => Val.undefined)
          ∧ Obj.get e.props "wrappedComponentRef" = Component.defaultProp "wrappedComponentRef"
          ∧ ∀ k, k ≠ "match" → k ≠ "location" → k ≠ "history" → k ≠ "staticContext" →
              k ≠ "wrappedComponentRef" → k ∉ reservedProps →
              (Component.defaultProp k = none → Obj.get e.props k = Obj.get props k)
                ∧ (∀ v, Obj.get props k = some v → v ≠ Val.undefined →
                    Obj.get e.props k = some v)
                ∧ (∀ d, Component.defaultProp k = some d →
                    (Obj.get props k = none ∨ Obj.get props k = some Val.undefined) →
                    Obj.get e.props k = some d) := by
  refine ⟨?_, ?_⟩
  · simp [mount, construct, computeMatch, invariant, render, withRouter.C]
  · intro state
    refine ⟨React.createElement Component
              (Obj.assign
                (Obj.assign (Obj.assign [] (Obj.without props "wrappedComponentRef"))
                  (RouteComponentProps.toObj
                    { «match» := state.match, location := router.route.location,
                      history := router.history, staticContext := router.staticContext }))
                [("ref", (Obj.get props "wrappedComponentRef").getD Val.undefined)]),
            ?_, rfl, ?_, ?_, ?_, ?_, ?_, ?_, ?_⟩
    · simp [render, withRouter.C]
    · cases hw : Obj.get props "wrappedComponentRef" <;>
        simp [React.createElement, Obj.get_assign, Obj.get, hw]
    · cases hm : state.match <;>
        simp [get_createElement_props, reservedProps, Obj.get_assign,
          RouteComponentProps.toObj, Obj.get, hm]
    · simp [get_createElement_props, reservedProps, Obj.get_assign,
        RouteComponentProps.toObj, Obj.get]
    · simp [get_createElement_props, reservedProps, Obj.get_assign,
        RouteComponentProps.toObj, Obj.get]
    · cases hs : router.staticContext <;> cases hd : Component.defaultProp "staticContext" <;>
        simp [get_createElement_props, reservedProps, Obj.get_assign,
          RouteComponentProps.toObj, Obj.get, hs, hd]
    · cases hd : Component.defaultProp "wrappedComponentRef" <;>
        simp [get_createElement_props, reservedProps, Obj.get_assign, Obj.get_without,
          RouteComponentProps.toObj, Obj.get, hd]
    · intro k h1 h2 h3 h4 h5 hres
      have hget : Obj.get
          (Obj.assign
            (Obj.assign (Obj.assign [] (Obj.without props "wrappedComponentRef"))
              (RouteComponentProps.toObj
                { «match» := state.match, location := router.route.location,
                  history := router.history, staticContext := router.staticContext }))
            [("ref", (Obj.get props "wrappedComponentRef").getD Val.undefined)]) k
          = Obj.get props k := by
        have hr : k ≠ "ref" := fun e => hres (by simp [e, reservedProps])
        simp [Obj.get_assign, Obj.get_without, RouteComponentProps.toObj, Obj.get,
          Ne.symm h1, Ne.symm h2, Ne.symm h3, Ne.symm h4, Ne.symm h5, Ne.symm hr]
      rw [get_createElement_props, hget]
      simp only [if_neg hres]
      refine ⟨?_, ?_, ?_⟩
      · intro hd
        simp [hd]
      · intro v hv hne
        simp [hv, hne]
      · intro d hd hp
        rcases hp with hp | hp <;> simp [hd, hp]

/-- Passed props `title`, `match`, `staticContext` and `wrappedComponentRef`
for a component without default props, under a router context without static
context, the inner route holding no match: `title` is kept, `match` is the
injected `null`, `staticContext` is the injected `undefined`, and the ref is
attached. -/
theorem withRouter_props_witness :
    ∃ e : Element,
      (render sampleDeps
          { props := withRouter.C sampleComponent samplePassedProps,
            context := { router := some sampleRouter },
            state := { «match» := none } }).result = Except.ok (Node.element e)
        ∧ e.ref = Val.ref 9
        ∧ Obj.get e.props "match" = some Val.null
        ∧ Obj.get e.props "staticContext" = some Val.undefined
        ∧ Obj.get e.props "title" = some (Val.str "Users") := by
  obtain ⟨e, h1, _, h3, h4, _, _, h7, _, h9⟩ :=
    (withRouter_props sampleDeps sampleComponent samplePassedProps sampleRouter).2
      { «match» := none }
  exact ⟨e, congrArg Run.result h1, h3, h4, h7,
    (h9 "title" (by decide) (by decide) (by decide) (by decide) (by decide)
      (by decide)).2.1 (Val.str "Users") rfl (by decide)⟩

/-- The statics of a component type given by its parts. -/
theorem statics_mk (name : String) (displayName : Option String)
    (propTypes : Option (List (String × String))) (defaultProps : Option (List (String × Val)))
    (statics : List (String × StaticValue)) :
    (ComponentType.mk name displayName propTypes defaultProps statics).statics = statics := rfl

/-- When `Component` has no own static `WrappedComponent`, the component type
returned by `withRouter(Component)` exposes `Component` as `WrappedComponent`. -/
theorem withRouter_WrappedComponent_of_plain (Component : ComponentType)
    (h : Obj.get Component.statics "WrappedComponent" = none) :
    WrappedComponent (withRouter Component) = some (StaticValue.component Component) := by
  simp [WrappedComponent, withRouter, hoistStatics, statics_mk, Obj.get_assign,
    Obj.set, Obj.get, h]

/-- C9 fails on a component that carries its own static `WrappedComponent`:
for `withRouter(withRouter(Page))` the hoisting of the statics of
`withRouter(Page)` overwrites the `WrappedComponent` assigned just before, so
the result exposes `Page` and not `withRouter(Page)`. -/
theorem withRouter_nested_WrappedComponent :
    WrappedComponent (withRouter sampleComponent)
        = some (StaticValue.component sampleComponent)
      ∧ WrappedComponent (withRouter (withRouter sampleComponent))
        = some (StaticValue.component sampleComponent)
      ∧ WrappedComponent (withRouter (withRouter sampleComponent))
        ≠ some (StaticValue.component (withRouter sampleComponent)) := by
  have e1 : WrappedComponent (withRouter sampleComponent)
      = some (StaticValue.component sampleComponent) :=
    withRouter_WrappedComponent_of_plain sampleComponent rfl
  have e2 : WrappedComponent (withRouter (withRouter sampleComponent))
      = some (StaticValue.component sampleComponent) := by
    simp [WrappedComponent, withRouter, hoistStatics, ComponentType.statics, Obj.get_assign,
      Obj.set, Obj.get, Obj.assign, Obj.keys, sampleComponent]
  refine ⟨e1, e2, ?_⟩
  rw [e2]
  intro h
  have hname : sampleComponent.name = (withRouter sampleComponent).name := by
    injection h with h
    injection h with h
    rw [← h]
  simp [sampleComponent, withRouter, hoistStatics, ComponentType.name] at hname

/-! ## Lifecycle: the stored match is fresh -/

/-- C10: the stored match is always the match of the current props and
context. Constructing with `props` and `context` succeeds exactly when
`computeMatch` does on them, and an update with `nextProps` and `nextContext`
succeeds exactly when `computeMatch` does on those; each yields an instance
that holds exactly that pair and that match. Hence on every instance reached by
a construction followed by any number of updates, `state.match` is the result
of `computeMatch` on the props and router context `render` reads. -/
theorem match_fresh (D : Deps) :
    (∀ props context «match»,
        (computeMatch D props context.router).result = Except.ok «match» →
        (construct D props context).result
          = Except.ok { props := props, context := context, state := { «match» := «match» } })
      ∧ (∀ props context e,
        (computeMatch D props context.router).result = Except.error e →
        (construct D props context).result = Except.error e)
      ∧ (∀ self nextProps nextContext «match»,
        (computeMatch D nextProps nextContext.router).result = Except.ok «match» →
        (update D self nextProps nextContext).result
          = Except.ok
              { props := nextProps, context := nextContext, state := { «match» := «match» } })
      ∧ (∀ self nextProps nextContext e,
        (computeMatch D nextProps nextContext.router).result = Except.error e →
        (update D self nextProps nextContext).result = Except.error e)
      ∧ (∀ self, Reachable D self →
        (computeMatch D self.props self.context.router).result
          = Except.ok self.state.match) := by
  have hc : ∀ props context «match»,
      (computeMatch D props context.router).result = Except.ok «match» →
      (construct D props context).result
        = Except.ok { props := props, context := context, state := { «match» := «match» } } := by
    intro props context m h
    simp [construct, h]
  have hu : ∀ self nextProps nextContext «match»,
      (computeMatch D nextProps nextContext.router).result = Except.ok «match» →
      (update D self nextProps nextContext).result
        = Except.ok
            { props := nextProps, context := nextContext, state := { «match» := «match» } } := by
    intro self nextProps nextContext m h
    simp [update, componentWillReceiveProps, h]
  refine ⟨hc, ?_, hu, ?_, ?_⟩
  · intro props context e h
    simp [construct, h]
  · intro self nextProps nextContext e h
    simp [update, componentWillReceiveProps, h]
  · intro self hreach
    cases hreach with
    | constructed props context h =>
      cases hm : (computeMatch D props context.router).result with
      | error e => simp [construct, hm] at h
      | ok m =>
        rw [hc props context m hm] at h
        cases h
        exact hm
    | updated previous nextProps nextContext _ h =>
      cases hm : (computeMatch D nextProps nextContext.router).result with
      | error e => simp [update, componentWillReceiveProps, hm] at h
      | ok m =>
        rw [hu previous nextProps nextContext m hm] at h
        cases h
        exact hm

/-- A route `/users` mounted at `/users/42` and then updated to `/about`: the
first instance holds the match of `/users`, the second holds `null`, the
result of `computeMatch` on the new props. -/
theorem match_fresh_witness :
    (construct sampleDeps usersProps { router := some sampleRouter }).result
        = Except.ok
            { props := usersProps, context := { router := some sampleRouter },
              state := { «match» := some usersMatch } }
      ∧ (update sampleDeps
            { props := usersProps, context := { router := some sampleRouter },
              state := { «match» := some usersMatch } }
            aboutProps { router := some sampleRouter }).result
        = Except.ok
            { props := aboutProps, context := { router := some sampleRouter },
              state := { «match» := none } }
      ∧ (computeMatch sampleDeps aboutProps (some sampleRouter)).result = Except.ok none :=
  have hc := (match_fresh sampleDeps).1 usersProps { router := some sampleRouter }
    (some usersMatch) rfl
  have hu := (match_fresh sampleDeps).2.2.1
    { props := usersProps, context := { router := some sampleRouter },
      state := { «match» := some usersMatch } }
    aboutProps { router := some sampleRouter } none rfl
  ⟨hc, hu,
    (match_fresh sampleDeps).2.2.2.2 _
      (Reachable.updated _ aboutProps { router := some sampleRouter }
        (Reachable.constructed usersProps { router := some sampleRouter } hc) hu)⟩

end ReactRouter
